import Mathlib

/-!
Verification of the netfliz portal aggregation, caching, progress and
stream-resolution logic (src/stream/models.py, src/stream/views.py).

Shallow embedding conventions:
* Database rows become Lean structures; tables become lists of rows.
* Python floats (playback positions) are modelled as rationals.
* Timestamps (updated_at, created_at, cache clock) are naturals.
* Python `x or d` on optional integers treats both None and 0 as falsy;
  this is captured by pyOrNat.
* Query sets are modelled at the row level: the portal eligibility filter
  `Q(blocked_tenants__isnull=True) | ~Q(blocked_tenants=tenant)` is the
  per-video disjunction (empty blocklist, or tenant not in the blocklist),
  matching the subquery-exclusion semantics the ORM gives negated
  multi-valued filters.
* The regular expressions of views.py are embedded as executable matchers
  over character lists with the exact character classes of the compiled
  patterns (including the doubled backslashes appearing in the source).
-/

namespace Netfliz

/-- A tenant row (stream/models.py, Tenant): primary key and unique slug.
Only the fields the portal logic reads are modelled. -/
structure Tenant where
  pk : Nat
  slug : String
deriving DecidableEq, Repr

/-- Category constant Video.CATEGORY_MOVIE = "movie". -/
def CATEGORY_MOVIE : String := "movie"

/-- Category constant Video.CATEGORY_SERIES = "series". -/
def CATEGORY_SERIES : String := "series"

/-- Category constant Video.CATEGORY_TV = "tv". -/
def CATEGORY_TV : String := "tv"

/-- A video row (stream/models.py, Video).  `blocked_tenants` is the set of
blocked tenant primary keys (the many-to-many blocklist).  The `genre`
field is used by the views and the video form. Modelled from the spec: the
`genre` column declaration is absent from the src snapshot of models.py
(forms.py and views.py reference it); per the spec it is free text,
empty when unset. -/
structure Video where
  id : Nat
  slug : String
  title : String
  description : String
  series_id : Option Nat
  season_number : Option Nat
  episode_number : Option Nat
  category : String
  genre : String
  is_public : Bool
  blocked_tenants : List Nat
  created_at : Nat
deriving DecidableEq, Repr

/-- Video.is_visible_to (models.py line 165): true iff no blocklist row for
this tenant exists. -/
def Video.is_visible_to (v : Video) (t : Tenant) : Bool :=
  !(v.blocked_tenants.contains t.pk)

/-- A VideoProgress row joined with its video (views.py fetches progress
with select_related("video")). -/
structure Progress where
  tenant_pk : Nat
  video : Video
  position : Rat
  updated_at : Nat
deriving DecidableEq, Repr

/-- A Series row (stream/models.py, Series), restricted to the fields the
portal reads. -/
structure Series where
  id : Nat
  title : String
  slug : String
  description : String
  cover_url : String
  is_active : Bool
deriving DecidableEq, Repr

/-- The eligibility queryset of TenantPortalView._build_portal_payload
(views.py lines 220-227): public videos, and for a bound tenant the
disjunction of an empty blocklist or the tenant being absent from it;
for the anonymous portal only videos with an empty blocklist. -/
def eligibleVideos (tenant : Option Tenant) (video_table : List Video) : List Video :=
  (video_table.filter (fun v => v.is_public)).filter (fun v =>
    match tenant with
    | some t => v.blocked_tenants.isEmpty || !(v.blocked_tenants.contains t.pk)
    | none => v.blocked_tenants.isEmpty)

/-- Progress rows fetched for the portal (views.py lines 230-233): for a
bound tenant, this tenant's rows whose video is in the eligible queryset;
empty for the anonymous portal. -/
def portalProgressEntries (tenant : Option Tenant) (video_table : List Video)
    (progress_table : List Progress) : List Progress :=
  match tenant with
  | none => []
  | some t =>
    progress_table.filter (fun p =>
      p.tenant_pk == t.pk &&
        (eligibleVideos (some t) video_table).any (fun v => v.id == p.video.id))

/-- Insert-or-overwrite into an insertion-ordered dictionary, the update
semantics of a Python dict comprehension (later keys win). -/
def dictUpsert (m : List (Nat × Rat)) (k : Nat) (x : Rat) : List (Nat × Rat) :=
  if m.any (fun kv => kv.1 == k) then
    m.map (fun kv => if kv.1 == k then (kv.1, x) else kv)
  else
    m ++ [(k, x)]

/-- The progress_map dict of views.py line 234: video id to position. -/
def buildProgressMap (entries : List Progress) : List (Nat × Rat) :=
  entries.foldl (fun m p => dictUpsert m p.video.id p.position) []

/-- Dictionary lookup with default 0, the progress_map.get(id, 0) calls. -/
def progressGet (m : List (Nat × Rat)) (k : Nat) : Rat :=
  ((m.find? (fun kv => kv.1 == k)).map (fun kv => kv.2)).getD 0

/-- Comparison used by continue_entries.sort(key=updated_at, reverse=True):
a stable sort placing larger update times first. -/
def updatedDescBool (a b : Progress) : Bool :=
  b.updated_at ≤ a.updated_at

/-- Progress entries with a strictly positive position (views.py 241-243). -/
def portalPosEntries (entries : List Progress) : List Progress :=
  entries.filter (fun p => decide (0 < p.position))

/-- The positive entries sorted descending by updated_at (views.py 244). -/
def portalRanked (entries : List Progress) : List Progress :=
  (portalPosEntries entries).mergeSort updatedDescBool

/-- The continue-watching entries: positive-position entries, ranked, then
truncated to the top 20 (views.py 241-245). -/
def continueEntriesOf (entries : List Progress) : List Progress :=
  (portalRanked entries).take 20

/-- Python `x or d` on an optional non-negative integer: None and 0 are
both falsy, so either yields the default. -/
def pyOrNat (x : Option Nat) (d : Nat) : Nat :=
  match x with
  | none => d
  | some n => if n = 0 then d else n

/-- Zero-padding to two digits, the Python format directive 02d applied to
the non-negative season and episode numbers. -/
def pad2 (n : Nat) : String :=
  if n < 10 then "0" ++ toString n else toString n

/-- Truncation toward zero of a rational, Python int(float(x)). -/
def ratTruncInt (q : Rat) : Int :=
  if q < 0 then -(⌊-q⌋) else ⌊q⌋

/-- format_duration_label (views.py 131-139): truncate to an integer,
clamp negatives to zero, render minutes unpadded and seconds padded. -/
def format_duration_label (seconds : Rat) : String :=
  let total_seconds : Nat := (ratTruncInt seconds).toNat
  toString (total_seconds / 60) ++ ":" ++ pad2 (total_seconds % 60)

/-- The episode sort key of _build_series_data (views.py 296-303):
season_number defaulted via Python `or 1`, episode_number via `or 0`,
then creation time. -/
def episodeKey (v : Video) : Nat × Nat × Nat :=
  (pyOrNat v.season_number 1, pyOrNat v.episode_number 0, v.created_at)

/-- Lexicographic comparison of episode sort keys, as Python compares the
key tuples. -/
def episodeLeBool (a b : Video) : Bool :=
  let ka := episodeKey a
  let kb := episodeKey b
  ka.1 < kb.1 || (ka.1 == kb.1 &&
    (ka.2.1 < kb.2.1 || (ka.2.1 == kb.2.1 && ka.2.2 ≤ kb.2.2)))

/-- The stable episode sort of _build_series_data (views.py 296-303). -/
def sortEpisodes (episodes : List Video) : List Video :=
  episodes.mergeSort episodeLeBool

/-- One rendered episode entry of the series payload (views.py 312-326). -/
structure EpisodeEntry where
  title : String
  description : String
  season_number : Nat
  episode_number : Nat
  episode_label : String
  watch_url : String
  resume_position : Rat
  resume_label : String
deriving DecidableEq, Repr

/-- URL of the tenant watch route (urls.py, stream:tenant-watch). -/
def watchUrl (tenant_slug video_slug : String) : String :=
  "/tenant/" ++ tenant_slug ++ "/watch/" ++ video_slug ++ "/"

/-- Construction of one episode entry (views.py 305-326); idx is the
1-based running index within the sorted group. -/
def mkEpisodeEntry (tenant_slug : String) (progress_map : List (Nat × Rat))
    (idx : Nat) (v : Video) : EpisodeEntry :=
  let season_number := pyOrNat v.season_number 1
  let episode_number := pyOrNat v.episode_number idx
  let resume_position := progressGet progress_map v.id
  { title := v.title
    description := v.description
    season_number := season_number
    episode_number := episode_number
    episode_label := "S" ++ pad2 season_number ++ " • E" ++ pad2 episode_number
    watch_url := watchUrl tenant_slug v.slug
    resume_position := resume_position
    resume_label :=
      if 0 < resume_position then format_duration_label resume_position else "" }

/-- The enumerate(episodes_sorted, start=1) loop of views.py 305-326. -/
def episodeEntriesOf (tenant_slug : String) (progress_map : List (Nat × Rat))
    (episodes_sorted : List Video) : List EpisodeEntry :=
  episodes_sorted.mapIdx (fun i v => mkEpisodeEntry tenant_slug progress_map (i + 1) v)

/-- One series payload record (views.py 328-338). -/
structure SeriesEntry where
  title : String
  slug : String
  description : String
  cover_url : String
  episode_count : Nat
  seasons : List Nat
  episodes : List EpisodeEntry
deriving DecidableEq, Repr

/-- The sorted set of distinct season numbers of a group's entries
(views.py 327). -/
def seasonsOf (entries : List EpisodeEntry) : List Nat :=
  (((entries.map (fun e => e.season_number)).mergeSort (fun a b => a ≤ b))).dedup

/-- The Count("episodes") annotation: number of video rows of the whole
table linked to the series. -/
def episodeCountAnn (video_table : List Video) (sid : Nat) : Nat :=
  video_table.countP (fun v => v.series_id == some sid)

/-- TenantPortalView._build_series_data (views.py 278-339): for the
anonymous portal both results are empty; otherwise the eligible episodic
videos are grouped by series id, the active series rows with at least one
group are ordered by title, and each series is rendered with its sorted
episode entries. -/
def build_series_data (tenant : Option Tenant) (video_table : List Video)
    (series_table : List Series) (all_videos : List Video)
    (progress_map : List (Nat × Rat)) : List SeriesEntry × List Series :=
  match tenant with
  | none => ([], [])
  | some t =>
    let present := series_table.filter (fun s =>
      s.is_active && all_videos.any (fun v => v.series_id == some s.id))
    let series_models := present.mergeSort (fun a b => a.title ≤ b.title)
    let payload := series_models.map (fun s =>
      let episodes := all_videos.filter (fun v => v.series_id == some s.id)
      let entries := episodeEntriesOf t.slug progress_map (sortEpisodes episodes)
      let cnt := episodeCountAnn video_table s.id
      { title := s.title
        slug := s.slug
        description := s.description
        cover_url := s.cover_url
        episode_count := if cnt = 0 then entries.length else cnt
        seasons := seasonsOf entries
        episodes := entries : SeriesEntry })
    (payload, series_models)

/-- Genre bucket key: Python `video.genre or "outro"`. -/
def genreKey (v : Video) : String :=
  if v.genre = "" then "outro" else v.genre

/-- The setdefault(key, []).append(video) step on the genre dictionary
(views.py 261). -/
def bucketAppend (m : List (String × List Video)) (k : String) (v : Video) :
    List (String × List Video) :=
  if m.any (fun kv => kv.1 == k) then
    m.map (fun kv => if kv.1 == k then (kv.1, kv.2 ++ [v]) else kv)
  else
    m ++ [(k, [v])]

/-- Lookup of a genre bucket, empty when the key is absent. -/
def bucketGet (m : List (String × List Video)) (k : String) : List Video :=
  ((m.find? (fun kv => kv.1 == k)).map (fun kv => kv.2)).getD []

/-- The videos_by_genre dictionary (views.py 258-261): standalone movies
bucketed by genre key in catalog order. -/
def buildGenreBuckets (standalone : List Video) : List (String × List Video) :=
  (standalone.filter (fun v => v.category == CATEGORY_MOVIE)).foldl
    (fun m v => bucketAppend m (genreKey v) v) []

/-- The derived portal structure (views.py 265-276).  The JSON-serialized
series payload is kept as its list of entries; resume attributes attached
to video objects are carried by progress_map and the episode entries. -/
structure PortalPayload where
  progress_map : List (Nat × Rat)
  continue_videos : List Video
  continue_movies : List Video
  continue_series : List Video
  continue_tv : List Video
  series_list : List Series
  series_payload : List SeriesEntry
  tv_channels : List Video
  movie_videos : List Video
  videos_by_genre : List (String × List Video)
deriving DecidableEq, Repr

/-- The category splits of the continue-watching list (views.py 250-252). -/
def continueMoviesOf (continue_videos : List Video) : List Video :=
  continue_videos.filter (fun v => v.series_id.isNone && v.category == CATEGORY_MOVIE)

/-- Episodic part of the continue-watching list (views.py 251). -/
def continueSeriesOf (continue_videos : List Video) : List Video :=
  continue_videos.filter (fun v => v.series_id.isSome)

/-- TV part of the continue-watching list (views.py 252). -/
def continueTvOf (continue_videos : List Video) : List Video :=
  continue_videos.filter (fun v => v.category == CATEGORY_TV)

/-- TenantPortalView._build_portal_payload (views.py 219-276). -/
def buildPortalPayload (tenant : Option Tenant) (video_table : List Video)
    (progress_table : List Progress) (series_table : List Series) : PortalPayload :=
  let all_videos := eligibleVideos tenant video_table
  let progress_entries := portalProgressEntries tenant video_table progress_table
  let progress_map := buildProgressMap progress_entries
  let continue_videos := (continueEntriesOf progress_entries).map (fun p => p.video)
  let sd := build_series_data tenant video_table series_table all_videos progress_map
  let standalone := all_videos.filter (fun v => v.series_id.isNone)
  { progress_map := progress_map
    continue_videos := continue_videos
    continue_movies := continueMoviesOf continue_videos
    continue_series := continueSeriesOf continue_videos
    continue_tv := continueTvOf continue_videos
    series_list := sd.2
    series_payload := sd.1
    tv_channels := standalone.filter (fun v => v.category == CATEGORY_TV)
    movie_videos := standalone.filter (fun v => v.category == CATEGORY_MOVIE)
    videos_by_genre := buildGenreBuckets standalone }

/-- TenantPortalView.CACHE_TIMEOUT (views.py 177): fifteen minutes. -/
def CACHE_TIMEOUT : Nat := 60 * 15

/-- The framework cache: per key an entry with its absolute expiry time
(a value stored at time t with timeout d expires at t + d, and a read at
time r hits exactly when r < t + d). -/
structure CacheState where
  entries : String → Option (PortalPayload × Nat)

/-- Cache read at a given time: the stored payload when present and not
yet expired, otherwise a miss. -/
def cache_get (c : CacheState) (key : String) (now : Nat) : Option PortalPayload :=
  match c.entries key with
  | none => none
  | some pe => if now < pe.2 then some pe.1 else none

/-- Cache write with a timeout: the entry expires timeout seconds later. -/
def cache_set (c : CacheState) (key : String) (payload : PortalPayload)
    (now timeout : Nat) : CacheState :=
  ⟨fun k => if k = key then some (payload, now + timeout) else c.entries k⟩

/-- TenantPortalView._get_cache_key (views.py 203-205): the tenant slug,
with the fixed sentinel "anonymous" when no tenant is bound or the slug
is empty (Python `or`). -/
def portal_cache_key (tenant : Option Tenant) : String :=
  "tenant_portal:" ++
    (match tenant with
     | some t => if t.slug = "" then "anonymous" else t.slug
     | none => "anonymous")

/-- TenantPortalView.get_queryset (views.py 193-201): return the cached
payload on a hit; on a miss build the payload, store it with the fixed
timeout and return it.  The boolean records whether a rebuild happened. -/
def portal_get_queryset (c : CacheState) (tenant : Option Tenant)
    (video_table : List Video) (progress_table : List Progress)
    (series_table : List Series) (now : Nat) :
    PortalPayload × CacheState × Bool :=
  let key := portal_cache_key tenant
  match cache_get c key now with
  | some payload => (payload, c, false)
  | none =>
    let payload := buildPortalPayload tenant video_table progress_table series_table
    (payload, cache_set c key payload now CACHE_TIMEOUT, true)

/-- A stored VideoProgress row as the progress endpoint sees it
(models.py 169-176). -/
structure ProgressRow where
  tenant_pk : Nat
  video_id : Nat
  position : Rat
  updated_at : Nat
deriving DecidableEq, Repr

/-- Outcome of VideoProgressView.post: 403, 404, an exception escaping the
handler (the framework answers 500), or the stored position. -/
inductive ProgressPostResult where
  | forbidden
  | notFound
  | serverError
  | ok (position : Rat)
deriving DecidableEq, Repr

/-- The JSON value found under the "position" key of an application/json
request body, classified by how Python float() treats it (views.py
532-536): a number, a numeric string, a non-numeric string (ValueError),
null (TypeError), or a non-scalar value such as a list or object
(TypeError).  Numeric values are carried as rationals; non-finite float
strings are outside this model. -/
inductive JsonPos where
  | num (q : Rat)
  | strNum (q : Rat)
  | strBad
  | null
  | nonScalar
deriving DecidableEq, Repr

/-- A request body for the progress endpoint (views.py 528-541): an
application/json body that fails to decode, or decodes to a non-object,
or decodes to an object with an optional "position" member; or a form
body whose optional position field parses to a float or fails. -/
inductive PostBody where
  | jsonInvalid
  | jsonNonObject
  | jsonObject (position : Option JsonPos)
  | form (parsed : Option Rat)
deriving DecidableEq, Repr

/-- Position parsing of VideoProgressView.post (views.py 528-541).  The
JSON branch catches only ValueError and JSONDecodeError, so an
undecodable body, a missing key or a non-numeric position string is
coerced to 0.0, while a position of null or of non-scalar type raises
TypeError and a decoded non-object body raises AttributeError — both
escape the handler (none).  The form branch catches ValueError and
TypeError, so it always coerces on failure. -/
def parse_position (body : PostBody) : Option Rat :=
  match body with
  | .jsonInvalid => some 0
  | .jsonNonObject => none
  | .jsonObject none => some 0
  | .jsonObject (some (.num q)) => some q
  | .jsonObject (some (.strNum q)) => some q
  | .jsonObject (some .strBad) => some 0
  | .jsonObject (some .null) => none
  | .jsonObject (some .nonScalar) => none
  | .form parsed => some (parsed.getD 0)

/-- The get_or_create-then-save upsert (views.py 543-545): update the
existing (tenant, video) row in place, or append a fresh row. -/
def upsert_progress (db : List ProgressRow) (tpk vid : Nat) (pos : Rat)
    (now : Nat) : List ProgressRow :=
  if db.any (fun r => r.tenant_pk == tpk && r.video_id == vid) then
    db.map (fun r =>
      if r.tenant_pk == tpk && r.video_id == vid then
        { r with position := pos, updated_at := now }
      else r)
  else
    db ++ [{ tenant_pk := tpk, video_id := vid, position := pos, updated_at := now }]

/-- VideoProgressView.post (views.py 509-552): 403 when the caller's bound
tenant is absent or differs from the path tenant; 404 when the named video
does not exist or is not visible to the tenant (note: the view looks the
video up by slug alone, without an is_public filter); then the position
payload is parsed — an uncaught parsing exception escapes before anything
is stored — and otherwise the clamped position is upserted and returned. -/
def video_progress_post (db : List ProgressRow) (video_table : List Video)
    (path_tenant : Tenant) (user_tenant : Option Tenant) (video_slug : String)
    (body : PostBody) (now : Nat) : ProgressPostResult × List ProgressRow :=
  if user_tenant ≠ some path_tenant then (.forbidden, db)
  else
    match video_table.find? (fun v => v.slug == video_slug) with
    | none => (.notFound, db)
    | some video =>
      if !(video.is_visible_to path_tenant) then (.notFound, db)
      else
        match parse_position body with
        | none => (.serverError, db)
        | some parsed =>
          let position := max 0 parsed
          (.ok position, upsert_progress db path_tenant.pk video.id position now)

/-- The apostrophe character, an element of the excluded character class of
M3U8_URL_PATTERN. -/
def quoteChar : Char := Char.ofNat 39

/-- Membership in the character class of the compiled M3U8_URL_PATTERN
(views.py 56).  The raw-string source doubles the backslash, so the class
written there excludes the double quote, the apostrophe, a literal
backslash and the letter s (case-insensitively, re.IGNORECASE), plus the
angle brackets — not whitespace. -/
def m3u8BodyChar (c : Char) : Bool :=
  !(c == '"' || c == quoteChar || c == '\\' || c.toLower == 's' ||
    c == '<' || c == '>')

/-- Case-insensitive literal matching (the pattern is compiled with
re.IGNORECASE); lit is given in lowercase.  Returns the rest of the input
after the literal. -/
def stripLitCI : List Char → List Char → Option (List Char)
  | [], cs => some cs
  | _ :: _, [] => none
  | l :: ls, c :: cs => if c.toLower == l then stripLitCI ls cs else none

/-- Matching the compiled M3U8_URL_PATTERN at one start position.  After
the scheme it needs one or more class characters, then — because the
doubled backslash makes a literal backslash — an actual backslash, one
further character, the letters m3u8, and a greedy run of class characters.
The class excludes the backslash, so no backtracking arises.  Returns the
matched prefix. -/
def m3u8MatchAt (cs : List Char) : Option (List Char) :=
  match stripLitCI ("http".data) cs with
  | none => none
  | some r1 =>
    match stripLitCI ("://".data)
        (if (r1.take 1).any (fun c => c.toLower == 's') then r1.drop 1 else r1) with
    | none => none
    | some r3 =>
      if (r3.takeWhile m3u8BodyChar).isEmpty then none
      else
        match r3.dropWhile m3u8BodyChar with
        | [] => none
        | a :: rest =>
          if a == '\\' then
            match rest with
            | [] => none
            | c :: r6 =>
              if c == '\n' then none
              else
                match stripLitCI ("m3u8".data) r6 with
                | none => none
                | some r7 =>
                  some (cs.take (cs.length - (r7.dropWhile m3u8BodyChar).length))
          else none

/-- re.search over the body: the leftmost position with a match wins. -/
def regexSearchM3u8 : List Char → Option (List Char)
  | [] => none
  | c :: cs =>
    match m3u8MatchAt (c :: cs) with
    | some m => some m
    | none => regexSearchM3u8 cs

/-- _extract_m3u8_url (views.py 397-399): the first substring of the body
matched by the compiled pattern. -/
def extract_m3u8_url (html : String) : Option String :=
  (regexSearchM3u8 html.data).map (fun l => String.mk l)

/-- Upstream fetch outcome for the TV channel endpoint: a network error or
timeout, or an HTTP response. -/
inductive FetchOutcome where
  | failed
  | response (status : Nat) (body : String)
deriving DecidableEq, Repr

/-- Result of TvChannelStreamView.get after the fetch (views.py 415-424). -/
inductive TvStreamResult where
  | badGateway (detail : String)
  | missing (detail : String)
  | okUrl (url : String)
deriving DecidableEq, Repr

/-- The response handling of TvChannelStreamView.get (views.py 415-424):
fetch errors and non-200 statuses give 502 responses, an extraction miss
gives a 404, and a hit returns the extracted URL. -/
def tv_channel_stream_response (outcome : FetchOutcome) : TvStreamResult :=
  match outcome with
  | .failed => .badGateway "Não foi possível recuperar o canal."
  | .response status body =>
    if status ≠ 200 then .badGateway "Canal indisponível no momento."
    else
      match extract_m3u8_url body with
      | none => .missing "Não encontramos um link direto de reprodução."
      | some url => .okUrl url

/-- Membership in the id character class [0-9A-Za-z_-] of the drive-link
patterns (views.py 42-46). -/
def driveIdChar (c : Char) : Bool :=
  ('0' ≤ c && c ≤ '9') || ('A' ≤ c && c ≤ 'Z') || ('a' ≤ c && c ≤ 'z') ||
    c == '_' || c == '-'

/-- Case-sensitive literal matching, returning the rest of the input. -/
def stripLit : List Char → List Char → Option (List Char)
  | [], cs => some cs
  | _ :: _, [] => none
  | l :: ls, c :: cs => if c == l then stripLit ls cs else none

/-- re.search for a literal followed by a captured run of id characters:
the leftmost position where the literal is followed by at least one id
character wins, and the capture is the maximal run there. -/
def captureAfterLit (lit : List Char) : List Char → Option (List Char)
  | [] => none
  | c :: cs =>
    match stripLit lit (c :: cs) with
    | some rest =>
      let run := rest.takeWhile driveIdChar
      if run.isEmpty then captureAfterLit lit cs else some run
    | none => captureAfterLit lit cs

/-- Matching the third drive pattern at one position: the raw string
doubles the backslash, so after the literal "/open" the pattern accepts an
optional literal backslash, then "id=" and the captured run. -/
def openIdMatchAt (cs : List Char) : Option (List Char) := do
  let r1 ← stripLit ("/open".data) cs
  let r2 := match r1 with
    | c :: rest => if c == '\\' then rest else r1
    | [] => r1
  let r3 ← stripLit ("id=".data) r2
  let run := r3.takeWhile driveIdChar
  if run.isEmpty then none else some run

/-- re.search for the third drive pattern. -/
def searchOpenId : List Char → Option (List Char)
  | [] => none
  | c :: cs =>
    match openIdMatchAt (c :: cs) with
    | some run => some run
    | none => searchOpenId cs

/-- _extract_google_drive_id (views.py 78-85): the prioritized pattern
list, first match wins; None when no pattern matches. -/
def extract_google_drive_id (url : String) : Option String :=
  match captureAfterLit ("/file/d/".data) url.data with
  | some run => some (String.mk run)
  | none =>
    match captureAfterLit ("id=".data) url.data with
    | some run => some (String.mk run)
    | none => (searchOpenId url.data).map (fun run => String.mk run)

/-- The reversed stream:google-drive-stream route (urls.py, path "drive/"). -/
def google_drive_stream_path : String := "/drive/"

/-- get_playback_source (views.py 124-128): route drive links through the
local streaming endpoint, return every other URL unchanged. -/
def get_playback_source (source_url : String) : String :=
  match extract_google_drive_id source_url with
  | some drive_id => google_drive_stream_path ++ "?id=" ++ drive_id
  | none => source_url

/-- A baseline public standalone movie, the template of the concrete
instances below. -/
def baseVideo : Video :=
  { id := 0, slug := "v0", title := "", description := "", series_id := none,
    season_number := none, episode_number := none, category := CATEGORY_MOVIE,
    genre := "", is_public := true, blocked_tenants := [], created_at := 0 }

/-- A concrete tenant. -/
def wTenant : Tenant := { pk := 1, slug := "alpha" }

/-- The i-th concrete catalog video. -/
def wVideo (i : Nat) : Video := { baseVideo with id := i, created_at := i }

/-- A concrete catalog of 25 public movies. -/
def wVideos : List Video := (List.range 25).map wVideo

/-- The i-th concrete progress row, in progress at position 1. -/
def wProgressRow (i : Nat) : Progress :=
  { tenant_pk := 1, video := wVideo i, position := 1, updated_at := i }

/-- A concrete progress table with 25 in-progress rows for one tenant. -/
def wProgressTable : List Progress := (List.range 25).map wProgressRow

/-- A concrete payload for the cache scenario. -/
def wPayload : PortalPayload := buildPortalPayload none [] [] []

/-- The empty cache. -/
def emptyCache : CacheState := ⟨fun _ => none⟩

/-- Episode with explicit episode number 1, created at time 100. -/
def epA : Video :=
  { baseVideo with
    id := 1, slug := "ep-a", series_id := some 7,
    category := CATEGORY_SERIES, episode_number := some 1, created_at := 100 }

/-- Episode with no episode number, created later, at time 200. -/
def epB : Video :=
  { baseVideo with
    id := 2, slug := "ep-b", series_id := some 7,
    category := CATEGORY_SERIES, episode_number := none, created_at := 200 }

/-- Episode with explicit episode number 1, created at time 300. -/
def epC : Video :=
  { baseVideo with
    id := 3, slug := "ep-c", series_id := some 7,
    category := CATEGORY_SERIES, episode_number := some 1, created_at := 300 }

/-- A non-public video with an empty blocklist. -/
def hiddenVideo : Video := { baseVideo with id := 9, slug := "hidden", is_public := false }

/-- A public video blocked for tenant 1. -/
def blockedVideo : Video :=
  { baseVideo with id := 10, slug := "blocked", blocked_tenants := [1] }

/-- A public, unblocked video. -/
def visibleVideo : Video := { baseVideo with id := 11, slug := "vis" }

/-! ## Theorems -/

/-- Helper: the portal eligibility filter for a bound tenant agrees with
the public flag plus the per-video visibility check. -/
theorem mem_eligible_some (t : Tenant) (vt : List Video) (v : Video) :
    v ∈ eligibleVideos (some t) vt ↔
      v ∈ vt ∧ v.is_public = true ∧ v.is_visible_to t = true := by
  simp only [eligibleVideos, List.mem_filter, Video.is_visible_to]
  constructor
  · rintro ⟨⟨hv, hp⟩, hb⟩
    refine ⟨hv, hp, ?_⟩
    rcases Bool.or_eq_true .. |>.mp hb with h | h
    · have hnil : v.blocked_tenants = [] := List.isEmpty_iff.mp h
      simp [hnil]
    · exact h
  · rintro ⟨hv, hp, hvis⟩
    exact ⟨⟨hv, hp⟩, Bool.or_eq_true .. |>.mpr (Or.inr hvis)⟩

/-- Helper: the anonymous eligibility filter keeps exactly the public
videos with an empty blocklist. -/
theorem mem_eligible_none (vt : List Video) (v : Video) :
    v ∈ eligibleVideos none vt ↔
      v ∈ vt ∧ v.is_public = true ∧ v.blocked_tenants = [] := by
  simp only [eligibleVideos, List.mem_filter, List.isEmpty_iff]
  tauto

/-- C3: is_visible(V, T) is exactly non-membership of T in V's blocklist;
a video is eligible for a tenant's portal payload iff it is public and
visible to the tenant; and for the anonymous portal exactly the public
videos with an empty blocklist are eligible. -/
theorem visibility_filter_correct :
    (∀ (v : Video) (t : Tenant), v.is_visible_to t = true ↔ t.pk ∉ v.blocked_tenants)
    ∧ (∀ (t : Tenant) (vt : List Video) (v : Video),
        v ∈ eligibleVideos (some t) vt ↔
          v ∈ vt ∧ v.is_public = true ∧ v.is_visible_to t = true)
    ∧ (∀ (vt : List Video) (v : Video),
        v ∈ eligibleVideos none vt ↔
          v ∈ vt ∧ v.is_public = true ∧ v.blocked_tenants = []) := by
  refine ⟨?_, mem_eligible_some, mem_eligible_none⟩
  intro v t
  simp [Video.is_visible_to]

/-- C10: an anonymous portal build has empty series list and payload,
empty progress map and empty continue-watching lists, whatever public
episodic videos exist. -/
theorem anonymous_portal_is_bare (vt : List Video) (pt : List Progress)
    (st : List Series) :
    (buildPortalPayload none vt pt st).series_list = []
    ∧ (buildPortalPayload none vt pt st).series_payload = []
    ∧ (buildPortalPayload none vt pt st).progress_map = []
    ∧ (buildPortalPayload none vt pt st).continue_videos = []
    ∧ (buildPortalPayload none vt pt st).continue_movies = []
    ∧ (buildPortalPayload none vt pt st).continue_series = []
    ∧ (buildPortalPayload none vt pt st).continue_tv = [] := by
  have hentries : portalProgressEntries none vt pt = [] := rfl
  have hrank : portalRanked (portalProgressEntries none vt pt) = [] := by
    simp [portalRanked, portalPosEntries, hentries]
  have hcv : (continueEntriesOf (portalProgressEntries none vt pt)).map
      (fun p => p.video) = [] := by
    simp [continueEntriesOf, hrank]
  refine ⟨rfl, rfl, rfl, ?_, ?_, ?_, ?_⟩ <;>
    simp [buildPortalPayload, continueMoviesOf, continueSeriesOf, continueTvOf, hcv]

/-- Helper: a read of the freshly written cache entry hits exactly while
the clock is below the write time plus the timeout. -/
theorem cache_get_after_set (c : CacheState) (key : String) (p : PortalPayload)
    (t0 timeout now : Nat) :
    cache_get (cache_set c key p t0 timeout) key now =
      if now < t0 + timeout then some p else none := by
  simp [cache_get, cache_set]

/-- C4: under the tenant's cache key, a payload stored at time t0 is
returned unmodified, without a rebuild, by every portal read strictly
before t0 + 900; a read at or after t0 + 900 rebuilds the payload through
the aggregator and stores it with a fresh 900-second timeout. -/
theorem portal_cache_ttl (c : CacheState) (tenant : Option Tenant)
    (vt : List Video) (pt : List Progress) (st : List Series)
    (p : PortalPayload) (t0 t : Nat) :
    CACHE_TIMEOUT = 900
    ∧ (t0 ≤ t → t < t0 + 900 →
        portal_get_queryset (cache_set c (portal_cache_key tenant) p t0 CACHE_TIMEOUT)
            tenant vt pt st t
          = (p, cache_set c (portal_cache_key tenant) p t0 CACHE_TIMEOUT, false))
    ∧ (t0 + 900 ≤ t →
        portal_get_queryset (cache_set c (portal_cache_key tenant) p t0 CACHE_TIMEOUT)
            tenant vt pt st t
          = (buildPortalPayload tenant vt pt st,
             cache_set (cache_set c (portal_cache_key tenant) p t0 CACHE_TIMEOUT)
               (portal_cache_key tenant) (buildPortalPayload tenant vt pt st) t CACHE_TIMEOUT,
             true)) := by
  have htime : CACHE_TIMEOUT = 900 := rfl
  refine ⟨htime, ?_, ?_⟩
  · intro _ hlt
    have hget := cache_get_after_set c (portal_cache_key tenant) p t0 CACHE_TIMEOUT t
    have hlt' : t < t0 + CACHE_TIMEOUT := by rw [htime]; omega
    rw [if_pos hlt'] at hget
    simp [portal_get_queryset, hget]
  · intro hge
    have hget := cache_get_after_set c (portal_cache_key tenant) p t0 CACHE_TIMEOUT t
    have hge' : ¬ t < t0 + CACHE_TIMEOUT := by rw [htime]; omega
    rw [if_neg hge'] at hget
    simp [portal_get_queryset, hget]

/-- Witness for C4 at a concrete cache, tenant and clock: a read at time
10 of an entry stored at time 0 hits without rebuilding, and a read at
time 901 rebuilds and restores. -/
theorem portal_cache_ttl_witness :
    portal_get_queryset (cache_set emptyCache (portal_cache_key (some wTenant))
        wPayload 0 CACHE_TIMEOUT) (some wTenant) [] [] [] 10
      = (wPayload, cache_set emptyCache (portal_cache_key (some wTenant))
          wPayload 0 CACHE_TIMEOUT, false)
    ∧ portal_get_queryset (cache_set emptyCache (portal_cache_key (some wTenant))
        wPayload 0 CACHE_TIMEOUT) (some wTenant) [] [] [] 901
      = (buildPortalPayload (some wTenant) [] [] [],
         cache_set (cache_set emptyCache (portal_cache_key (some wTenant))
             wPayload 0 CACHE_TIMEOUT)
           (portal_cache_key (some wTenant))
           (buildPortalPayload (some wTenant) [] [] []) 901 CACHE_TIMEOUT,
         true) :=
  ⟨(portal_cache_ttl emptyCache (some wTenant) [] [] [] wPayload 0 10).2.1
      (by norm_num) (by norm_num),
   (portal_cache_ttl emptyCache (some wTenant) [] [] [] wPayload 0 901).2.2
      (by norm_num)⟩

/-- Helper: looking up a bucket after one append step: the appended video
lands at the end of its own bucket and every other bucket is unchanged. -/
theorem bucketGet_append (m : List (String × List Video)) (k g : String) (v : Video) :
    bucketGet (bucketAppend m k v) g =
      if g = k then bucketGet m g ++ [v] else bucketGet m g := by
  by_cases hany : m.any (fun kv => kv.1 == k) = true
  · have hup : bucketAppend m k v =
        m.map (fun kv => if kv.1 == k then (kv.1, kv.2 ++ [v]) else kv) := by
      simp [bucketAppend, hany]
    rw [hup]
    unfold bucketGet
    rw [List.find?_map]
    have hcomp : ((fun x : String × List Video => x.1 == g) ∘
        (fun kv : String × List Video =>
          if kv.1 == k then (kv.1, kv.2 ++ [v]) else kv)) =
        (fun kv : String × List Video => kv.1 == g) := by
      funext kv
      by_cases h : (kv.1 == k) = true <;> simp [Function.comp, h]
    rw [hcomp]
    cases hfm : m.find? (fun kv => kv.1 == g) with
    | none =>
      by_cases hg : g = k
      · exfalso
        obtain ⟨kv, hkv, hk⟩ := List.any_eq_true.mp hany
        rw [hg] at hfm
        exact absurd hk (List.find?_eq_none.mp hfm kv hkv)
      · simp [hg]
    | some kv0 =>
      have hk0 : kv0.1 = g := by simpa using List.find?_some hfm
      by_cases hg : g = k
      · have hb : (kv0.1 == k) = true := by
          rw [hk0, hg]
          exact beq_self_eq_true k
        simp [hb, hg]
        rw [if_pos (hk0.trans hg)]
      · have hb : (kv0.1 == k) = false := by
          rw [hk0]
          exact beq_eq_false_iff_ne.mpr hg
        simp [hb, hg]
        rw [if_neg (fun h => hg (hk0.symm.trans h))]
  · have hany' : m.any (fun kv => kv.1 == k) = false := Bool.eq_false_iff.mpr hany
    have hap : bucketAppend m k v = m ++ [(k, [v])] := by
      simp [bucketAppend, hany']
    rw [hap]
    unfold bucketGet
    rw [List.find?_append]
    have hnone : m.find? (fun kv : String × List Video => kv.1 == k) = none := by
      rw [List.find?_eq_none]
      intro x hx
      exact List.any_eq_false.mp hany' x hx
    by_cases hg : g = k
    · rw [if_pos hg, hg, hnone]
      have hone : List.find? (fun kv : String × List Video => kv.1 == k)
          [(k, [v])] = some (k, [v]) := by
        simp [List.find?]
      rw [hone]
      simp
    · rw [if_neg hg]
      have hb : ((k : String) == g) = false :=
        beq_eq_false_iff_ne.mpr (fun h => hg h.symm)
      have hone : List.find? (fun kv : String × List Video => kv.1 == g)
          [(k, [v])] = none := by
        simp [List.find?, hb]
      rw [hone]
      simp

/-- Helper: folding the setdefault-append step over a list of videos: each
bucket collects, in order, exactly the videos whose genre key names it. -/
theorem bucketGet_fold (l : List Video) (m : List (String × List Video)) (g : String) :
    bucketGet (l.foldl (fun acc v => bucketAppend acc (genreKey v) v) m) g =
      bucketGet m g ++ l.filter (fun v => genreKey v == g) := by
  induction l generalizing m with
  | nil => simp
  | cons a l ih =>
    simp only [List.foldl_cons, List.filter_cons]
    rw [ih, bucketGet_append]
    by_cases hbeq : (genreKey a == g) = true
    · have hg : g = genreKey a := (beq_iff_eq.mp hbeq).symm
      rw [if_pos hg, hbeq]
      simp
    · have hbeq' : (genreKey a == g) = false := by simpa using hbeq
      have hg : ¬ g = genreKey a := by
        intro h
        rw [h] at hbeq'
        simp at hbeq'
      rw [if_neg hg, hbeq']
      simp

/-- C5: the standalone eligible movies are exactly movie_videos; the genre
dictionary buckets exactly the standalone eligible movies under their
genre key (with "outro" for an empty genre); and tv_channels are exactly
the standalone eligible tv-channel videos. -/
theorem genre_bucket_partition (tenant : Option Tenant) (vt : List Video)
    (pt : List Progress) (st : List Series) :
    (∀ v : Video, v ∈ (buildPortalPayload tenant vt pt st).movie_videos ↔
        v ∈ eligibleVideos tenant vt ∧ v.series_id = none ∧ v.category = CATEGORY_MOVIE)
    ∧ (∀ (g : String) (v : Video),
        v ∈ bucketGet ((buildPortalPayload tenant vt pt st).videos_by_genre) g ↔
          v ∈ eligibleVideos tenant vt ∧ v.series_id = none ∧
            v.category = CATEGORY_MOVIE ∧ genreKey v = g)
    ∧ (∀ v : Video, v ∈ (buildPortalPayload tenant vt pt st).tv_channels ↔
        v ∈ eligibleVideos tenant vt ∧ v.series_id = none ∧ v.category = CATEGORY_TV) := by
  have hmv : (buildPortalPayload tenant vt pt st).movie_videos =
      ((eligibleVideos tenant vt).filter (fun v => v.series_id.isNone)).filter
        (fun v => v.category == CATEGORY_MOVIE) := rfl
  have htv : (buildPortalPayload tenant vt pt st).tv_channels =
      ((eligibleVideos tenant vt).filter (fun v => v.series_id.isNone)).filter
        (fun v => v.category == CATEGORY_TV) := rfl
  have hbg : (buildPortalPayload tenant vt pt st).videos_by_genre =
      buildGenreBuckets ((eligibleVideos tenant vt).filter (fun v => v.series_id.isNone)) := rfl
  refine ⟨?_, ?_, ?_⟩
  · intro v
    rw [hmv]
    simp only [List.mem_filter, Option.isNone_iff_eq_none, beq_iff_eq,
      Bool.and_eq_true, decide_eq_true_eq]
    tauto
  · intro g v
    rw [hbg]
    unfold buildGenreBuckets
    rw [bucketGet_fold]
    simp only [bucketGet, List.find?_nil, Option.map_none', Option.getD_none,
      List.nil_append, List.mem_filter, Option.isNone_iff_eq_none, beq_iff_eq,
      Bool.and_eq_true, decide_eq_true_eq]
    tauto
  · intro v
    rw [htv]
    simp only [List.mem_filter, Option.isNone_iff_eq_none, beq_iff_eq,
      Bool.and_eq_true, decide_eq_true_eq]
    tauto

/-- Helper: transitivity of the descending updated_at comparison. -/
theorem updatedDescBool_trans (a b c : Progress) :
    updatedDescBool a b = true → updatedDescBool b c = true →
      updatedDescBool a c = true := by
  simp only [updatedDescBool, decide_eq_true_eq]
  omega

/-- Helper: totality of the descending updated_at comparison. -/
theorem updatedDescBool_total (a b : Progress) :
    (updatedDescBool a b || updatedDescBool b a) = true := by
  simp only [updatedDescBool, Bool.or_eq_true, decide_eq_true_eq]
  omega

/-- C1: the continue-watching list of a tenant build is the positive
progress entries ranked descending by updated_at and truncated to 20
before any category split; it never exceeds 20 videos, with 25 positive
entries exactly 20 remain, and an entry outside the truncated ranking
appears in none of the three category lists. -/
theorem continue_watching_top20 (t : Tenant) (vt : List Video)
    (pt : List Progress) (st : List Series)
    (hids : List.Pairwise (fun a b : Progress => a.video.id ≠ b.video.id)
      (portalProgressEntries (some t) vt pt)) :
    (buildPortalPayload (some t) vt pt st).continue_videos
        = (continueEntriesOf (portalProgressEntries (some t) vt pt)).map
            (fun p => p.video)
    ∧ (portalRanked (portalProgressEntries (some t) vt pt)).Perm
        (portalPosEntries (portalProgressEntries (some t) vt pt))
    ∧ List.Pairwise (fun a b : Progress => b.updated_at ≤ a.updated_at)
        (portalRanked (portalProgressEntries (some t) vt pt))
    ∧ (buildPortalPayload (some t) vt pt st).continue_videos.length ≤ 20
    ∧ ((portalPosEntries (portalProgressEntries (some t) vt pt)).length = 25 →
        (buildPortalPayload (some t) vt pt st).continue_videos.length = 20)
    ∧ (∀ p ∈ portalPosEntries (portalProgressEntries (some t) vt pt),
        p ∉ continueEntriesOf (portalProgressEntries (some t) vt pt) →
          p.video ∉ (buildPortalPayload (some t) vt pt st).continue_movies
          ∧ p.video ∉ (buildPortalPayload (some t) vt pt st).continue_series
          ∧ p.video ∉ (buildPortalPayload (some t) vt pt st).continue_tv) := by
  have hcv : (buildPortalPayload (some t) vt pt st).continue_videos
      = (continueEntriesOf (portalProgressEntries (some t) vt pt)).map
          (fun p => p.video) := rfl
  have hperm : (portalRanked (portalProgressEntries (some t) vt pt)).Perm
      (portalPosEntries (portalProgressEntries (some t) vt pt)) :=
    List.mergeSort_perm _ _
  have hsorted : List.Pairwise (fun a b : Progress => b.updated_at ≤ a.updated_at)
      (portalRanked (portalProgressEntries (some t) vt pt)) := by
    have h : List.Pairwise (fun a b => updatedDescBool a b = true)
        (portalRanked (portalProgressEntries (some t) vt pt)) :=
      List.sorted_mergeSort updatedDescBool_trans
        updatedDescBool_total (portalPosEntries (portalProgressEntries (some t) vt pt))
    refine List.Pairwise.imp ?_ h
    intro a b hab
    simpa [updatedDescBool] using hab
  have hlen : ∀ es : List Progress,
      (continueEntriesOf es).length = min 20 (portalPosEntries es).length := by
    intro es
    have hr : (portalRanked es).length = (portalPosEntries es).length :=
      List.length_mergeSort _
    simp [continueEntriesOf, List.length_take, hr]
  refine ⟨hcv, hperm, hsorted, ?_, ?_, ?_⟩
  · rw [hcv, List.length_map, hlen]
    exact Nat.min_le_left _ _
  · intro h25
    rw [hcv, List.length_map, hlen, h25]
    decide
  · intro p hp hpnot
    have hpe : p ∈ portalProgressEntries (some t) vt pt :=
      List.mem_of_mem_filter
        (show p ∈ List.filter (fun q => decide (0 < q.position))
          (portalProgressEntries (some t) vt pt) from hp)
    have hsymm : Symmetric (fun a b : Progress => a.video.id ≠ b.video.id) :=
      fun _ _ h he => h he.symm
    have hmain : p.video ∉ (continueEntriesOf (portalProgressEntries (some t) vt pt)).map
        (fun q => q.video) := by
      intro hmem
      obtain ⟨q, hq, hqv⟩ := List.mem_map.mp hmem
      have hqr : q ∈ portalRanked (portalProgressEntries (some t) vt pt) :=
        (List.take_sublist 20 _).subset hq
      have hqpos : q ∈ portalPosEntries (portalProgressEntries (some t) vt pt) :=
        hperm.subset hqr
      have hqe : q ∈ portalProgressEntries (some t) vt pt :=
        List.mem_of_mem_filter
          (show q ∈ List.filter (fun r => decide (0 < r.position))
            (portalProgressEntries (some t) vt pt) from hqpos)
      by_cases hqp : q = p
      · exact hpnot (hqp ▸ hq)
      · exact List.Pairwise.forall hsymm hids hqe hpe hqp (congrArg Video.id hqv)
    refine ⟨?_, ?_, ?_⟩
    · intro h
      exact hmain (List.mem_of_mem_filter
        (show p.video ∈ List.filter
          (fun v => v.series_id.isNone && v.category == CATEGORY_MOVIE)
          ((continueEntriesOf (portalProgressEntries (some t) vt pt)).map
            (fun q => q.video)) from h))
    · intro h
      exact hmain (List.mem_of_mem_filter
        (show p.video ∈ List.filter (fun v => v.series_id.isSome)
          ((continueEntriesOf (portalProgressEntries (some t) vt pt)).map
            (fun q => q.video)) from h))
    · intro h
      exact hmain (List.mem_of_mem_filter
        (show p.video ∈ List.filter (fun v => v.category == CATEGORY_TV)
          ((continueEntriesOf (portalProgressEntries (some t) vt pt)).map
            (fun q => q.video)) from h))

/-- Witness for C1: a concrete tenant with 25 in-progress eligible videos
gets exactly 20 continue-watching entries. -/
theorem continue_watching_top20_witness :
    (buildPortalPayload (some wTenant) wVideos wProgressTable []).continue_videos.length
      = 20 := by
  have h := continue_watching_top20 wTenant wVideos wProgressTable [] (by decide)
  exact h.2.2.2.2.1 (by decide)

/-- Helper: transitivity of the lexicographic episode comparison. -/
theorem episodeLeBool_trans (a b c : Video) :
    episodeLeBool a b = true → episodeLeBool b c = true →
      episodeLeBool a c = true := by
  simp only [episodeLeBool, episodeKey, Bool.or_eq_true, Bool.and_eq_true,
    decide_eq_true_eq, beq_iff_eq]
  omega

/-- Helper: totality of the lexicographic episode comparison. -/
theorem episodeLeBool_total (a b : Video) :
    (episodeLeBool a b || episodeLeBool b a) = true := by
  simp only [episodeLeBool, episodeKey, Bool.or_eq_true, Bool.and_eq_true,
    decide_eq_true_eq, beq_iff_eq]
  omega

unseal List.merge List.mergeSort in
/-- C2 counterexample: the group [epA, epB] — epA has episode number 1 and
creation time 100, epB has no episode number and creation time 200 — is
sorted by the code as [epB, epA], because the sort key defaults a missing
episode number to 0, not to the running index.  Both defaulted entries
carry season 1, episode 1 and the label "S01 • E01", yet the episode
created at 200 precedes the one created at 100, so the list is not sorted
by the claimed triple and equal defaulted numbers are not ordered by
creation time. -/
theorem episode_sort_counterexample :
    sortEpisodes [epA, epB] = [epB, epA]
    ∧ (episodeEntriesOf "alpha" [] (sortEpisodes [epA, epB])).map
        (fun e => (e.season_number, e.episode_number)) = [(1, 1), (1, 1)]
    ∧ (episodeEntriesOf "alpha" [] (sortEpisodes [epA, epB])).map
        (fun e => e.episode_label) = ["S01 • E01", "S01 • E01"]
    ∧ epB.created_at = 200 ∧ epA.created_at = 100 := by
  refine ⟨?_, ?_, ?_, rfl, rfl⟩ <;> decide

/-- C2 (amended): each series group is sorted ascending by the triple
(season_number via Python `or 1`, the STORED episode_number via `or 0`,
created_at); the running-index default applies only to the rendered
episode number and label, which is "S{season or 1:02d} • E{episode or
idx:02d}" at 1-based position idx of the sorted group; and two episodes
whose stored season and episode numbers coincide are ordered by creation
time. -/
theorem episode_order_amended (group : List Video) :
    (sortEpisodes group).Perm group
    ∧ List.Pairwise (fun a b => episodeLeBool a b = true) (sortEpisodes group)
    ∧ (∀ (tslug : String) (pm : List (Nat × Rat)) (i : Nat) (v : Video),
        (sortEpisodes group)[i]? = some v →
          (episodeEntriesOf tslug pm (sortEpisodes group))[i]?
              = some (mkEpisodeEntry tslug pm (i + 1) v)
            ∧ (mkEpisodeEntry tslug pm (i + 1) v).season_number
                = pyOrNat v.season_number 1
            ∧ (mkEpisodeEntry tslug pm (i + 1) v).episode_number
                = pyOrNat v.episode_number (i + 1)
            ∧ (mkEpisodeEntry tslug pm (i + 1) v).episode_label
                = "S" ++ pad2 (pyOrNat v.season_number 1) ++ " • E"
                    ++ pad2 (pyOrNat v.episode_number (i + 1)))
    ∧ (∀ (i j : Nat) (a b : Video), i < j →
        (sortEpisodes group)[i]? = some a → (sortEpisodes group)[j]? = some b →
        a.season_number = b.season_number → a.episode_number = b.episode_number →
        a.created_at ≤ b.created_at) := by
  refine ⟨List.mergeSort_perm _ _,
    List.sorted_mergeSort episodeLeBool_trans episodeLeBool_total _, ?_, ?_⟩
  · intro tslug pm i v hv
    refine ⟨?_, rfl, rfl, rfl⟩
    simp only [episodeEntriesOf, List.getElem?_mapIdx, hv, Option.map_some']
  · intro i j a b hij ha hb hs he
    have hpair : List.Pairwise (fun a b => episodeLeBool a b = true)
        (sortEpisodes group) :=
      List.sorted_mergeSort episodeLeBool_trans episodeLeBool_total group
    obtain ⟨hi, ha'⟩ := List.getElem?_eq_some_iff.mp ha
    obtain ⟨hj, hb'⟩ := List.getElem?_eq_some_iff.mp hb
    have hr := List.pairwise_iff_getElem.mp hpair i j hi hj hij
    rw [ha', hb'] at hr
    simp only [episodeLeBool, episodeKey, Bool.or_eq_true, Bool.and_eq_true,
      decide_eq_true_eq, beq_iff_eq] at hr
    rw [hs, he] at hr
    omega

unseal List.merge List.mergeSort in
/-- Witness for the amended C2: in the concrete group [epA, epB] the first
rendered entry is the defaulted entry of epB, and in the group [epC, epA]
two episodes with identical stored numbers come out ordered by creation
time. -/
theorem episode_order_amended_witness :
    ((episodeEntriesOf "alpha" [] (sortEpisodes [epA, epB]))[0]?
        = some (mkEpisodeEntry "alpha" [] 1 epB)
      ∧ (mkEpisodeEntry "alpha" [] 1 epB).season_number = pyOrNat epB.season_number 1
      ∧ (mkEpisodeEntry "alpha" [] 1 epB).episode_number = pyOrNat epB.episode_number 1
      ∧ (mkEpisodeEntry "alpha" [] 1 epB).episode_label
          = "S" ++ pad2 (pyOrNat epB.season_number 1) ++ " • E"
              ++ pad2 (pyOrNat epB.episode_number 1))
    ∧ epA.created_at ≤ epC.created_at :=
  ⟨(episode_order_amended [epA, epB]).2.2.1 "alpha" [] 0 epB (by decide),
   (episode_order_amended [epC, epA]).2.2.2 0 1 epA epC (by norm_num)
     (by decide) (by decide) rfl rfl⟩

/-- Helper: the upsert leaves exactly one row under its key whenever the
table respected the uniqueness constraint before. -/
theorem countP_upsert (db : List ProgressRow) (tpk vid : Nat) (pos : Rat) (now : Nat)
    (hcnt : db.countP (fun r => r.tenant_pk == tpk && r.video_id == vid) ≤ 1) :
    (upsert_progress db tpk vid pos now).countP
        (fun r => r.tenant_pk == tpk && r.video_id == vid) = 1 := by
  by_cases hany : db.any (fun r => r.tenant_pk == tpk && r.video_id == vid) = true
  · have hmap : upsert_progress db tpk vid pos now = db.map (fun r =>
        if r.tenant_pk == tpk && r.video_id == vid then
          { r with position := pos, updated_at := now }
        else r) := by
      simp [upsert_progress, hany]
    rw [hmap, List.countP_map]
    have hsame : List.countP ((fun r : ProgressRow =>
          r.tenant_pk == tpk && r.video_id == vid) ∘ (fun r : ProgressRow =>
          if r.tenant_pk == tpk && r.video_id == vid then
            { r with position := pos, updated_at := now }
          else r)) db
        = List.countP (fun r : ProgressRow =>
            r.tenant_pk == tpk && r.video_id == vid) db := by
      apply List.countP_congr
      intro r _
      by_cases h : (r.tenant_pk == tpk && r.video_id == vid) = true <;>
        simp [Function.comp, h]
    rw [hsame]
    have hpos : 0 < List.countP (fun r : ProgressRow =>
        r.tenant_pk == tpk && r.video_id == vid) db :=
      List.countP_pos_iff.mpr (List.any_eq_true.mp hany)
    omega
  · have happ : upsert_progress db tpk vid pos now =
        db ++ [{ tenant_pk := tpk, video_id := vid, position := pos,
                 updated_at := now }] := by
      simp [upsert_progress, hany]
    rw [happ, List.countP_append]
    have hz : List.countP (fun r : ProgressRow =>
        r.tenant_pk == tpk && r.video_id == vid) db = 0 := by
      rw [List.countP_eq_zero]
      intro r hr hp
      exact hany (List.any_eq_true.mpr ⟨r, hr, hp⟩)
    rw [hz]
    simp [List.countP_cons]

/-- Helper: after the upsert, the row found under the key carries exactly
the written position. -/
theorem find?_upsert (db : List ProgressRow) (tpk vid : Nat) (pos : Rat) (now : Nat) :
    ((upsert_progress db tpk vid pos now).find?
        (fun r => r.tenant_pk == tpk && r.video_id == vid)).map (fun r => r.position)
      = some pos := by
  by_cases hany : db.any (fun r => r.tenant_pk == tpk && r.video_id == vid) = true
  · have hmap : upsert_progress db tpk vid pos now = db.map (fun r =>
        if r.tenant_pk == tpk && r.video_id == vid then
          { r with position := pos, updated_at := now }
        else r) := by
      simp [upsert_progress, hany]
    rw [hmap, List.find?_map]
    have hcomp : ((fun r : ProgressRow => r.tenant_pk == tpk && r.video_id == vid) ∘
        (fun r : ProgressRow =>
          if r.tenant_pk == tpk && r.video_id == vid then
            { r with position := pos, updated_at := now }
          else r)) =
        (fun r : ProgressRow => r.tenant_pk == tpk && r.video_id == vid) := by
      funext r
      by_cases h : (r.tenant_pk == tpk && r.video_id == vid) = true <;>
        simp [Function.comp, h]
    rw [hcomp]
    have hsome : (db.find? (fun r : ProgressRow =>
        r.tenant_pk == tpk && r.video_id == vid)).isSome :=
      List.find?_isSome.mpr (List.any_eq_true.mp hany)
    obtain ⟨r0, hr0⟩ := Option.isSome_iff_exists.mp hsome
    rw [hr0]
    have hp0 := List.find?_some hr0
    simp only [Bool.and_eq_true, beq_iff_eq] at hp0
    simp [hp0]
  · have happ : upsert_progress db tpk vid pos now =
        db ++ [{ tenant_pk := tpk, video_id := vid, position := pos,
                 updated_at := now }] := by
      simp [upsert_progress, hany]
    rw [happ, List.find?_append]
    have hz : db.find? (fun r : ProgressRow =>
        r.tenant_pk == tpk && r.video_id == vid) = none := by
      rw [List.find?_eq_none]
      intro r hr hp
      exact hany (List.any_eq_true.mpr ⟨r, hr, hp⟩)
    rw [hz]
    simp [List.find?]

/-- Helper: the progress endpoint on the success path clamps the parsed
position at 0 and upserts it. -/
theorem video_progress_post_success (db : List ProgressRow) (vt : List Video)
    (t : Tenant) (vslug : String) (v : Video) (body : PostBody) (q : Rat)
    (now : Nat)
    (hfind : vt.find? (fun w => w.slug == vslug) = some v)
    (hvis : v.is_visible_to t = true)
    (hparse : parse_position body = some q) :
    video_progress_post db vt t (some t) vslug body now
      = (.ok (max 0 q), upsert_progress db t.pk v.id (max 0 q) now) := by
  simp [video_progress_post, hfind, hvis, hparse]

/-- Helper: on the crash path an uncaught parsing exception escapes the
handler before anything is stored. -/
theorem video_progress_post_crash (db : List ProgressRow) (vt : List Video)
    (t : Tenant) (vslug : String) (v : Video) (body : PostBody) (now : Nat)
    (hfind : vt.find? (fun w => w.slug == vslug) = some v)
    (hvis : v.is_visible_to t = true)
    (hparse : parse_position body = none) :
    video_progress_post db vt t (some t) vslug body now = (.serverError, db) := by
  simp [video_progress_post, hfind, hvis, hparse]

/-- C6 counterexample: a malformed position payload is not always coerced
to 0.0: the JSON branch catches only ValueError and JSONDecodeError, so
posting the JSON body with "position": null — or a decoded non-object
JSON body — to a visible video raises an uncaught TypeError or
AttributeError, a server error with nothing stored, instead of storing
0.0. -/
theorem progress_malformed_counterexample :
    video_progress_post [] [visibleVideo] wTenant (some wTenant) "vis"
        (.jsonObject (some .null)) 0 = (.serverError, [])
    ∧ video_progress_post [] [visibleVideo] wTenant (some wTenant) "vis"
        .jsonNonObject 0 = (.serverError, []) := by
  exact ⟨by decide, by decide⟩

/-- C6 (amended): posting position -10 for a visible video stores exactly
0 (negatives clamp to 0); a malformed position is coerced to 0 exactly
where the code catches the error — an undecodable JSON body, a
non-numeric position string, and every form-branch failure — while a JSON
position of null or non-scalar type (and a decoded non-object body)
escapes as an uncaught error with nothing stored; posting twice for the
same (tenant, video) pair leaves exactly one row, holding the last
clamped position. -/
theorem progress_clamp_and_upsert (db : List ProgressRow) (vt : List Video)
    (t : Tenant) (vslug : String) (v : Video) (b1 b2 : PostBody) (q1 q2 : Rat)
    (n1 n2 : Nat)
    (hfind : vt.find? (fun w => w.slug == vslug) = some v)
    (hvis : v.is_visible_to t = true)
    (hcnt : db.countP (fun r => r.tenant_pk == t.pk && r.video_id == v.id) ≤ 1)
    (hp1 : parse_position b1 = some q1)
    (hp2 : parse_position b2 = some q2) :
    (video_progress_post db vt t (some t) vslug
        (.jsonObject (some (.num (-10)))) n1).1 = .ok 0
    ∧ (((video_progress_post db vt t (some t) vslug
          (.jsonObject (some (.num (-10)))) n1).2.find?
          (fun r => r.tenant_pk == t.pk && r.video_id == v.id)).map
          (fun r => r.position)) = some 0
    ∧ (video_progress_post db vt t (some t) vslug .jsonInvalid n1).1 = .ok 0
    ∧ (video_progress_post db vt t (some t) vslug
        (.jsonObject (some .strBad)) n1).1 = .ok 0
    ∧ (video_progress_post db vt t (some t) vslug (.form none) n1).1 = .ok 0
    ∧ video_progress_post db vt t (some t) vslug (.jsonObject (some .null)) n1
        = (.serverError, db)
    ∧ ((video_progress_post (video_progress_post db vt t (some t) vslug b1 n1).2
          vt t (some t) vslug b2 n2).2.countP
          (fun r => r.tenant_pk == t.pk && r.video_id == v.id)) = 1
    ∧ (((video_progress_post (video_progress_post db vt t (some t) vslug b1 n1).2
          vt t (some t) vslug b2 n2).2.find?
          (fun r => r.tenant_pk == t.pk && r.video_id == v.id)).map
          (fun r => r.position)) = some (max 0 q2) := by
  have hneg : max 0 (-10 : Rat) = (0 : Rat) := by norm_num
  have h1 := video_progress_post_success db vt t vslug v
    (.jsonObject (some (.num (-10)))) (-10) n1 hfind hvis rfl
  have h2 := video_progress_post_success db vt t vslug v .jsonInvalid 0 n1
    hfind hvis rfl
  have h3 := video_progress_post_success db vt t vslug v
    (.jsonObject (some .strBad)) 0 n1 hfind hvis rfl
  have h4 := video_progress_post_success db vt t vslug v (.form none) 0 n1
    hfind hvis rfl
  have h5 := video_progress_post_crash db vt t vslug v
    (.jsonObject (some .null)) n1 hfind hvis rfl
  have hb1 := video_progress_post_success db vt t vslug v b1 q1 n1 hfind hvis hp1
  have hb2 := video_progress_post_success
    (upsert_progress db t.pk v.id (max 0 q1) n1) vt t vslug v b2 q2 n2
    hfind hvis hp2
  have hc1 := countP_upsert db t.pk v.id (max 0 q1) n1 hcnt
  refine ⟨?_, ?_, ?_, ?_, ?_, h5, ?_, ?_⟩
  · rw [h1, hneg]
  · rw [h1, hneg]
    exact find?_upsert db t.pk v.id 0 n1
  · rw [h2]
    norm_num
  · rw [h3]
    norm_num
  · rw [h4]
    norm_num
  · rw [hb1]
    rw [show (ProgressPostResult.ok (max 0 q1),
        upsert_progress db t.pk v.id (max 0 q1) n1).2
      = upsert_progress db t.pk v.id (max 0 q1) n1 from rfl]
    rw [hb2]
    exact countP_upsert _ t.pk v.id _ n2 (by omega)
  · rw [hb1]
    rw [show (ProgressPostResult.ok (max 0 q1),
        upsert_progress db t.pk v.id (max 0 q1) n1).2
      = upsert_progress db t.pk v.id (max 0 q1) n1 from rfl]
    rw [hb2]
    exact find?_upsert _ t.pk v.id _ n2

/-- Witness for the amended C6: on an empty table, posting JSON -10 for
the visible video answers with position 0, a JSON null position crashes
with nothing stored, and a second successful post leaves exactly one
row. -/
theorem progress_clamp_and_upsert_witness :
    (video_progress_post [] [visibleVideo] wTenant (some wTenant) "vis"
        (.jsonObject (some (.num (-10)))) 5).1 = .ok 0
    ∧ video_progress_post [] [visibleVideo] wTenant (some wTenant) "vis"
        (.jsonObject (some .null)) 5 = (.serverError, [])
    ∧ ((video_progress_post (video_progress_post [] [visibleVideo] wTenant
          (some wTenant) "vis" (.jsonObject (some (.num (-10)))) 5).2 [visibleVideo]
          wTenant (some wTenant) "vis" (.form (some 7)) 6).2.countP
          (fun r => r.tenant_pk == wTenant.pk && r.video_id == visibleVideo.id))
        = 1 := by
  have h := progress_clamp_and_upsert [] [visibleVideo] wTenant "vis" visibleVideo
    (.jsonObject (some (.num (-10)))) (.form (some 7)) (-10) 7 5 6
    (by decide) (by decide) (by decide) rfl rfl
  exact ⟨h.1, h.2.2.2.2.2.1, h.2.2.2.2.2.2.1⟩

/-- C7 counterexample: the progress endpoint does not re-check the public
flag: for the non-public, unblocked hiddenVideo the write succeeds with
the posted position instead of reporting not-found. -/
theorem progress_post_counterexample :
    hiddenVideo.is_public = false
    ∧ (video_progress_post [] [hiddenVideo] wTenant (some wTenant) "hidden"
        (.form (some 5)) 0).1 = .ok 5 := by
  exact ⟨rfl, by decide⟩

/-- C7 (amended): a progress write is forbidden whenever the caller's
bound tenant is absent or differs from the path tenant; it is not-found
whenever the named video does not exist or is not visible (blocklisted)
for the path tenant — the public flag is not checked on progress writes;
when the position payload parses (including the caught-error coercions to
0) it succeeds, upserting and returning the clamped position; a payload
whose parsing raises an uncaught error yields a server error with nothing
stored. -/
theorem progress_post_auth (db : List ProgressRow) (vt : List Video)
    (path_t : Tenant) (user_t : Option Tenant) (vslug : String)
    (body : PostBody) (now : Nat) :
    (user_t ≠ some path_t →
        video_progress_post db vt path_t user_t vslug body now = (.forbidden, db))
    ∧ (vt.find? (fun w => w.slug == vslug) = none →
        video_progress_post db vt path_t (some path_t) vslug body now
          = (.notFound, db))
    ∧ (∀ v : Video, vt.find? (fun w => w.slug == vslug) = some v →
        v.is_visible_to path_t = false →
        video_progress_post db vt path_t (some path_t) vslug body now
          = (.notFound, db))
    ∧ (∀ (v : Video) (q : Rat), vt.find? (fun w => w.slug == vslug) = some v →
        v.is_visible_to path_t = true → parse_position body = some q →
        video_progress_post db vt path_t (some path_t) vslug body now
          = (.ok (max 0 q), upsert_progress db path_t.pk v.id (max 0 q) now))
    ∧ (∀ v : Video, vt.find? (fun w => w.slug == vslug) = some v →
        v.is_visible_to path_t = true → parse_position body = none →
        video_progress_post db vt path_t (some path_t) vslug body now
          = (.serverError, db)) := by
  refine ⟨?_, ?_, ?_, ?_, ?_⟩
  · intro h
    simp [video_progress_post, h]
  · intro h
    simp [video_progress_post, h]
  · intro v hv hvis
    simp [video_progress_post, hv, hvis]
  · intro v q hv hvis hq
    exact video_progress_post_success db vt path_t vslug v body q now hv hvis hq
  · intro v hv hvis hq
    exact video_progress_post_crash db vt path_t vslug v body now hv hvis hq

/-- Witness for the amended C7 at concrete inputs: an unbound caller is
forbidden, an unknown slug and a blocklisted video give not-found, a
visible video succeeds with the clamped position, and a JSON null
position gives a server error. -/
theorem progress_post_auth_witness :
    video_progress_post [] [] wTenant none "x" (.form none) 0 = (.forbidden, [])
    ∧ video_progress_post [] [] wTenant (some wTenant) "x" (.form none) 0
        = (.notFound, [])
    ∧ video_progress_post [] [blockedVideo] wTenant (some wTenant) "blocked"
        (.form none) 0 = (.notFound, [])
    ∧ video_progress_post [] [visibleVideo] wTenant (some wTenant) "vis"
        (.form (some 3)) 0
        = (.ok 3, upsert_progress [] wTenant.pk visibleVideo.id 3 0)
    ∧ video_progress_post [] [visibleVideo] wTenant (some wTenant) "vis"
        (.jsonObject (some .null)) 0 = (.serverError, []) := by
  refine ⟨?_, ?_, ?_, ?_, ?_⟩
  · exact (progress_post_auth [] [] wTenant none "x" (.form none) 0).1 (by decide)
  · exact (progress_post_auth [] [] wTenant (some wTenant) "x" (.form none) 0).2.1
      (by decide)
  · exact (progress_post_auth [] [blockedVideo] wTenant (some wTenant) "blocked"
      (.form none) 0).2.2.1 blockedVideo (by decide) (by decide)
  · have h := (progress_post_auth [] [visibleVideo] wTenant (some wTenant) "vis"
      (.form (some 3)) 0).2.2.2.1 visibleVideo 3 (by decide) (by decide) rfl
    have hm : max (0 : Rat) 3 = 3 := by norm_num
    rw [hm] at h
    exact h
  · exact (progress_post_auth [] [visibleVideo] wTenant (some wTenant) "vis"
      (.jsonObject (some .null)) 0).2.2.2.2 visibleVideo (by decide) (by decide) rfl

/-- Helper: successful literal matching consumes a prefix, so its output
is a suffix of its input. -/
theorem stripLitCI_suffix :
    ∀ (lit cs rest : List Char), stripLitCI lit cs = some rest → rest <:+ cs := by
  intro lit
  induction lit with
  | nil =>
    intro cs rest h
    cases h
    exact List.suffix_refl _
  | cons l ls ih =>
    intro cs rest h
    cases cs with
    | nil => cases h
    | cons c cs =>
      rw [stripLitCI] at h
      by_cases hc : (c.toLower == l) = true
      · rw [if_pos hc] at h
        exact (ih cs rest h).trans (List.suffix_cons c cs)
      · rw [if_neg hc] at h
        cases h

/-- Helper: a successful match of the compiled M3U8 pattern at a start
position forces a literal backslash in the input: the character class of
the doubled-backslash pattern cannot absorb one, and the pattern demands
one before the character preceding m3u8. -/
theorem m3u8MatchAt_backslash (cs m : List Char) (h : m3u8MatchAt cs = some m) :
    '\\' ∈ cs := by
  unfold m3u8MatchAt at h
  split at h
  · exact Option.noConfusion h
  · rename_i r1 h1
    split at h
    · exact Option.noConfusion h
    · rename_i r3 h3
      split at h
      · exact Option.noConfusion h
      · split at h
        · exact Option.noConfusion h
        · rename_i a rest h4
          split at h
          · rename_i ha
            have haeq : a = '\\' := beq_iff_eq.mp ha
            have hs1 : r1 <:+ cs := stripLitCI_suffix _ _ _ h1
            have hs2 : (if (r1.take 1).any (fun c => c.toLower == 's') then
                r1.drop 1 else r1) <:+ r1 := by
              by_cases hc : ((r1.take 1).any (fun c => c.toLower == 's')) = true
              · rw [if_pos hc]
                exact List.drop_suffix 1 r1
              · rw [if_neg hc]
            have hs3 : r3 <:+ (if (r1.take 1).any (fun c => c.toLower == 's') then
                r1.drop 1 else r1) := stripLitCI_suffix _ _ _ h3
            have hmem : a ∈ r3.dropWhile m3u8BodyChar := by
              rw [h4]
              exact List.mem_cons_self a rest
            have hacs : a ∈ cs :=
              hs1.subset (hs2.subset (hs3.subset
                ((List.dropWhile_suffix m3u8BodyChar).subset hmem)))
            rwa [haeq] at hacs
          · exact Option.noConfusion h

/-- Helper: the body search only succeeds on inputs containing a literal
backslash. -/
theorem regexSearchM3u8_backslash :
    ∀ (cs m : List Char), regexSearchM3u8 cs = some m → '\\' ∈ cs := by
  intro cs
  induction cs with
  | nil =>
    intro m h
    cases h
  | cons c cs ih =>
    intro m h
    unfold regexSearchM3u8 at h
    cases hm : m3u8MatchAt (c :: cs) with
    | some m0 => exact m3u8MatchAt_backslash _ _ hm
    | none =>
      rw [hm] at h
      exact List.mem_cons_of_mem c (ih m h)

/-- Helper: the compiled pattern can never match a backslash-free body:
every such TV-channel page yields an extraction miss. -/
theorem extract_m3u8_url_requires_backslash (html : String)
    (h : '\\' ∉ html.data) : extract_m3u8_url html = none := by
  unfold extract_m3u8_url
  cases hs : regexSearchM3u8 html.data with
  | none => rfl
  | some m => exact absurd (regexSearchM3u8_backslash _ _ hs) h

/-- C8 (code bug): M3U8_URL_PATTERN is written in a raw string with
doubled backslashes, so the compiled pattern requires a literal backslash
before the character preceding m3u8 and excludes the letter s from the
URL body: a page carrying a plain https URL ending in .m3u8 is answered
with the 404 branch instead of the URL, while fetch failures and non-200
statuses are answered with the 502 branches; only a URL containing a
literal backslash can ever match. -/
theorem m3u8_resolver_code_bug :
    extract_m3u8_url "<html>https://cdn.example.com/live.m3u8</html>" = none
    ∧ tv_channel_stream_response
        (.response 200 "<html>https://cdn.example.com/live.m3u8</html>")
        = .missing "Não encontramos um link direto de reprodução."
    ∧ tv_channel_stream_response .failed
        = .badGateway "Não foi possível recuperar o canal."
    ∧ tv_channel_stream_response (.response 503 "x")
        = .badGateway "Canal indisponível no momento."
    ∧ extract_m3u8_url "https://x\\ym3u8" = some "https://x\\ym3u8" := by
  refine ⟨?_, ?_, ?_, ?_, ?_⟩ <;> decide

/-- C9: drive-link extraction follows the prioritized pattern list with
first-match-wins — a hit of the path-segment pattern alone decides the
result — the canonical /file/d/ABC123 URL yields the id ABC123, and a URL
matched by no pattern is returned unchanged by the playback resolver. -/
theorem drive_id_resolution :
    extract_google_drive_id "https://drive.google.com/file/d/ABC123/view"
        = some "ABC123"
    ∧ (∀ (url : String) (g : List Char),
        captureAfterLit ("/file/d/".data) url.data = some g →
          extract_google_drive_id url = some (String.mk g))
    ∧ (∀ url : String, extract_google_drive_id url = none →
        get_playback_source url = url) := by
  refine ⟨by decide, ?_, ?_⟩
  · intro url g h
    simp [extract_google_drive_id, h]
  · intro url h
    simp [get_playback_source, h]

/-- Witness for C9: a first-pattern hit at a concrete URL, and an
unmatched URL passing through the resolver unchanged. -/
theorem drive_id_resolution_witness :
    extract_google_drive_id "https://ex.com/file/d/F00/view"
        = some (String.mk ("F00".data))
    ∧ get_playback_source "https://cdn.example.com/movie.mp4"
        = "https://cdn.example.com/movie.mp4" :=
  ⟨drive_id_resolution.2.1 "https://ex.com/file/d/F00/view" ("F00".data) (by decide),
   drive_id_resolution.2.2 "https://cdn.example.com/movie.mp4" (by decide)⟩

end Netfliz
